import Mathlib

/-!
Verification of the CoAgentics financial-advisory client.

This file shallowly embeds the client-side logic of the repository:
the onboarding form (validation and profile assembly), the Firestore
service (profile and chat-history persistence), the chat interface
(message list, session-id lifecycle, error classification), the legacy
API response interceptor, the auth-context profile check, and the voice
recording hook.  Stateful browser code is modelled as explicit state
passing; Firestore documents are association lists of optionally
defined JSON-like values; fallible operations are `Except`/`Option`.
-/

namespace CoAgentics

/-! ## JSON-like document values (Firestore documents)

A Firestore document is a list of (key, value) pairs.  A value of
`none` stands for JavaScript `undefined`; `removeUndefinedValues`
(src/client/src/lib/firestore.ts) drops exactly those entries. -/

inductive JsValue where
  | str : String → JsValue
  | num : Int → JsValue
  | boolean : Bool → JsValue
  | date : Nat → JsValue
  | obj : List (String × JsValue) → JsValue
deriving Repr

/-- firestore.ts `removeUndefinedValues`: keep the entries whose value
is defined (`value !== undefined`). -/
def removeUndefinedValues (l : List (String × Option JsValue)) : List (String × Option JsValue) :=
  l.filter fun kv => kv.2.isSome

/-! ## Onboarding form data (OnboardingForm.tsx `FormData`) -/

inductive Gender where
  | male | female | other | preferNotToSay
deriving DecidableEq, Repr

inductive MaritalStatus where
  | single | married | divorced | widowed
deriving DecidableEq, Repr

inductive EmploymentStatus where
  | salaried | selfEmployed | unemployed
deriving DecidableEq, Repr

structure Dependents where
  wife : Bool
  parents : Bool
  kids : Bool
deriving DecidableEq, Repr

structure LocationData where
  state : String
  city : String
deriving DecidableEq, Repr

structure Insurance where
  life : Bool
  health : Bool
deriving DecidableEq, Repr

structure InsuranceCoverage where
  healthClaimLimit : Int
  lifeClaimLimit : Int
deriving DecidableEq, Repr

structure FormData where
  name : String
  age : Int
  gender : Gender
  maritalStatus : MaritalStatus
  employmentStatus : EmploymentStatus
  industryType : String
  monthlyIncome : Int
  dependents : Dependents
  kidsCount : Int
  location : LocationData
  insurance : Insurance
  insuranceCoverage : InsuranceCoverage
deriving DecidableEq, Repr

/-- JavaScript `String.prototype.trim`, as used by the form code
(`formData.name.trim()`): whitespace stripped from both ends. -/
def jsTrim (s : String) : String :=
  ⟨((s.data.dropWhile Char.isWhitespace).reverse.dropWhile Char.isWhitespace).reverse⟩

/-! ## Per-step validation (OnboardingForm.tsx `validateStep`)

Each case returns the `newErrors` entries the source adds for that
step; validation succeeds when the error record is empty.  An empty
string models a falsy string field (`!formData.industryType`), and a
trimmed-empty string models `!formData.name.trim()`. -/

def validateStep (step : Nat) (fd : FormData) : List (String × String) :=
  match step with
  | 0 =>
      (if jsTrim fd.name = "" then [("name", "Name is required")] else []) ++
      (if fd.age < 18 ∨ fd.age > 100 then
        [("age", "Age must be between 18 and 100")] else [])
  | 1 =>
      (if fd.employmentStatus = .salaried ∧ fd.industryType = "" then
        [("industryType", "Industry type is required for salaried employees")] else []) ++
      (if fd.employmentStatus ≠ .unemployed ∧ fd.monthlyIncome ≤ 0 then
        [("monthlyIncome", "Monthly income is required and must be greater than 0")] else [])
  | 2 =>
      if fd.dependents.kids ∧ fd.kidsCount < 1 then
        [("kidsCount", "Number of kids is required when kids dependency is selected")] else []
  | 3 =>
      (if fd.location.state = "" then [("state", "State is required")] else []) ++
      (if jsTrim fd.location.city = "" then [("city", "City is required")] else [])
  | 4 =>
      (if fd.insurance.health ∧ fd.insuranceCoverage.healthClaimLimit ≤ 0 then
        [("healthClaimLimit", "Health insurance claim limit is required when health insurance is selected")] else []) ++
      (if fd.insurance.life ∧ fd.insuranceCoverage.lifeClaimLimit ≤ 0 then
        [("lifeClaimLimit", "Life insurance claim limit is required when life insurance is selected")] else [])
  | _ => []

/-- The wizard advances through all five steps (STEPS.length = 5), each
gated by `validateStep`; a submission is reachable exactly when every
step validates. -/
def allStepsValid (fd : FormData) : Bool :=
  (validateStep 0 fd).isEmpty && (validateStep 1 fd).isEmpty &&
  (validateStep 2 fd).isEmpty && (validateStep 3 fd).isEmpty &&
  (validateStep 4 fd).isEmpty

/-- The claim's characterization of successful validation, written from
its words: presence of each optional quantity is stated as a
biconditional with its flag ("industry type is present iff employment
status is salaried", "kids-count >= 1 iff the kids dependency flag is
set", "each insurance claim limit is > 0 iff its insurance flag is
set"). -/
def claimedValidationSpec (fd : FormData) : Bool :=
  (jsTrim fd.name ≠ "") && (18 ≤ fd.age) && (fd.age ≤ 100) &&
  (decide (fd.industryType ≠ "") == decide (fd.employmentStatus = .salaried)) &&
  (fd.employmentStatus = .unemployed || 0 < fd.monthlyIncome) &&
  (decide (1 ≤ fd.kidsCount) == fd.dependents.kids) &&
  (fd.location.state ≠ "") && (jsTrim fd.location.city ≠ "") &&
  (decide (0 < fd.insuranceCoverage.healthClaimLimit) == fd.insurance.health) &&
  (decide (0 < fd.insuranceCoverage.lifeClaimLimit) == fd.insurance.life)

/-! ## Profile assembly on submit (OnboardingForm.tsx `handleSubmit`,
firestore.ts `createUserProfile`) -/

def Gender.toJsString : Gender → String
  | .male => "male"
  | .female => "female"
  | .other => "other"
  | .preferNotToSay => "prefer-not-to-say"

def MaritalStatus.toJsString : MaritalStatus → String
  | .single => "single"
  | .married => "married"
  | .divorced => "divorced"
  | .widowed => "widowed"

def EmploymentStatus.toJsString : EmploymentStatus → String
  | .salaried => "salaried"
  | .selfEmployed => "self-employed"
  | .unemployed => "unemployed"

def Dependents.toJsValue (d : Dependents) : JsValue :=
  .obj [("wife", .boolean d.wife), ("parents", .boolean d.parents), ("kids", .boolean d.kids)]

def LocationData.toJsValue (l : LocationData) : JsValue :=
  .obj [("state", .str l.state), ("city", .str l.city)]

def Insurance.toJsValue (i : Insurance) : JsValue :=
  .obj [("life", .boolean i.life), ("health", .boolean i.health)]

def InsuranceCoverage.toJsValue (c : InsuranceCoverage) : JsValue :=
  .obj [("healthClaimLimit", .num c.healthClaimLimit), ("lifeClaimLimit", .num c.lifeClaimLimit)]

/-- handleSubmit's `baseProfile` object: the unconditional fields,
including `profileCompleted: true`. -/
def baseProfileFields (uid email : String) (fd : FormData) : List (String × Option JsValue) :=
  [("uid", some (.str uid)),
   ("email", some (.str email)),
   ("name", some (.str fd.name)),
   ("age", some (.num fd.age)),
   ("gender", some (.str fd.gender.toJsString)),
   ("maritalStatus", some (.str fd.maritalStatus.toJsString)),
   ("employmentStatus", some (.str fd.employmentStatus.toJsString)),
   ("monthlyIncome", some (.num fd.monthlyIncome)),
   ("dependents", some fd.dependents.toJsValue),
   ("location", some fd.location.toJsValue),
   ("insurance", some fd.insurance.toJsValue),
   ("insuranceCoverage", some fd.insuranceCoverage.toJsValue),
   ("profileCompleted", some (.boolean true))]

/-- handleSubmit's `profile` object: the base fields plus the two
conditional spreads `...(formData.employmentStatus === 'salaried' &&
formData.industryType && { industryType })` and
`...(formData.dependents.kids && formData.kidsCount > 0 &&
{ kidsCount })`; a false condition contributes no key at all. -/
def submittedProfileFields (uid email : String) (fd : FormData) : List (String × Option JsValue) :=
  baseProfileFields uid email fd ++
  (if fd.employmentStatus = .salaried ∧ fd.industryType ≠ "" then
    [("industryType", some (.str fd.industryType))] else []) ++
  (if fd.dependents.kids ∧ 0 < fd.kidsCount then
    [("kidsCount", some (.num fd.kidsCount))] else [])

/-- firestore.ts `createUserProfile`: add `createdAt`/`updatedAt` and
strip undefined values before `setDoc`. -/
def createUserProfileDoc (profile : List (String × Option JsValue)) (now : Nat) :
    List (String × Option JsValue) :=
  removeUndefinedValues
    (profile ++ [("createdAt", some (.date now)), ("updatedAt", some (.date now))])

/-- The document the onboarding submission writes to the `users`
collection. -/
def submittedProfileDoc (uid email : String) (fd : FormData) (now : Nat) :
    List (String × Option JsValue) :=
  createUserProfileDoc (submittedProfileFields uid email fd) now

/-! ## Chat messages and chat-history persistence (firestore.ts) -/

inductive Role where
  | user | assistant
deriving DecidableEq, Repr

structure ChatMsg where
  id : String
  content : String
  role : Role
  timestamp : Nat
  agent : Option String
  metadata : Option String
deriving DecidableEq, Repr

/-- A `chat-history` collection document.  `createdAt` is optional in
the raw document (the reader guards with `?.toDate() || now`); all
records this code writes set it. -/
structure ChatRecord where
  user_id : String
  session_id : String
  chat_data : List ChatMsg
  title : String
  createdAt : Option Nat
  updatedAt : Nat
deriving DecidableEq, Repr

/-- The `chat-history` collection, keyed by session id. -/
def ChatStore := String → Option ChatRecord

def setDoc (store : ChatStore) (sid : String) (r : ChatRecord) : ChatStore :=
  fun k => if k = sid then some r else store k

/-- `Chat ${new Date().toLocaleDateString()}`, the fallback title. -/
def defaultChatTitle (now : Nat) : String := "Chat " ++ toString now

/-- firestore.ts `FirestoreService.saveChatHistory`: read the existing
document, then `setDoc` a record whose `chat_data` is the given list
wholesale.  `createdAt` is `now` for a new session and the existing
record's `createdAt?.toDate() || now` otherwise; `title` falls back to
a dated default when absent or empty (`title || ...` is falsy on the
empty string).  `removeUndefinedValues` is applied before the write but
every field of the record is defined, so it keeps all of them. -/
def saveChatHistory (store : ChatStore) (userId sessionId : String)
    (messages : List ChatMsg) (title : Option String) (now : Nat) : ChatStore :=
  let existing := store sessionId
  let isNewSession := existing.isNone
  setDoc store sessionId
    { user_id := userId
      session_id := sessionId
      chat_data := messages
      title := match title with
        | some t => if t ≠ "" then t else defaultChatTitle now
        | none => defaultChatTitle now
      createdAt := some (if isNewSession then now else (existing.bind ChatRecord.createdAt).getD now)
      updatedAt := now }

/-- firestore.ts `FirestoreService.updateChatHistory`: `updateDoc`
replacing `chat_data` and `updatedAt` on the existing document.  On a
missing document Firestore rejects; the only caller
(`saveChatHistoryDirectly`) catches and merely logs, so the store is
unchanged on that path. -/
def updateChatHistory (store : ChatStore) (sessionId : String)
    (messages : List ChatMsg) (now : Nat) : ChatStore :=
  match store sessionId with
  | some old => setDoc store sessionId { old with chat_data := messages, updatedAt := now }
  | none => store

/-! ## Chat interface (src/unnamed/part_002 `ChatInterface`) -/

/-- The fixed greeting seeding every conversation. -/
def greetingMessage : ChatMsg :=
  { id := "1"
    content := "Hello! I'm your CoAgentics AI Financial Assistant. I can help you with financial planning, investment advice, calculations, and market research. What would you like to know?"
    role := .assistant
    timestamp := 0
    agent := some "financial_assistant"
    metadata := none }

/-- JavaScript truthiness of an optional string (`if (msg.agent)`):
absent and empty are both falsy. -/
def jsTruthy : Option String → Bool
  | none => false
  | some s => s ≠ ""

/-- JavaScript `s.substring(0, n)`. -/
def jsTake (s : String) (n : Nat) : String := ⟨s.data.take n⟩

/-- The per-message conversion in `saveChatHistoryDirectly`: keep id,
content, role and timestamp; keep `agent` and `metadata` only when
truthy. -/
def toStoredMessage (m : ChatMsg) : ChatMsg :=
  { m with agent := if jsTruthy m.agent then m.agent else none
           metadata := if jsTruthy m.metadata then m.metadata else none }

/-- The in-memory chat component state: the message list, the tracked
session id, the session id of `currentChatHistory` (when set), and the
document store it writes through. -/
structure ChatState where
  messages : List ChatMsg
  sessionId : Option String
  currentHistorySession : Option String
  store : ChatStore

def initialChatState (store : ChatStore) : ChatState :=
  { messages := [greetingMessage]
    sessionId := none
    currentHistorySession := none
    store := store }

/-- part_002 `saveChatHistoryDirectly`: skip when at most the greeting
is present; otherwise convert the messages, derive the title from the
first user message (`substring(0, 50)`), and either update the current
chat's document or save a new one and remember it as current. -/
def saveChatHistoryDirectly (userId : String) (st : ChatState) (sid : String)
    (messagesToSave : List ChatMsg) (now : Nat) : ChatState :=
  if messagesToSave.length ≤ 1 then st
  else
    let chatMessages := messagesToSave.map toStoredMessage
    let title := match messagesToSave.find? (fun m => m.role == Role.user) with
      | some m => jsTake m.content 50
      | none => defaultChatTitle now
    if st.currentHistorySession = some sid then
      { st with store := updateChatHistory st.store sid chatMessages now }
    else
      { st with store := saveChatHistory st.store userId sid chatMessages (some title) now
                currentHistorySession := some sid }

/-- The user message `handleSend` appends:
`{ id: Date.now().toString(), content: input.trim(), role: 'user' }`. -/
def userMsgOf (inputText : String) (now : Nat) : ChatMsg :=
  { id := toString now, content := jsTrim inputText, role := .user
    timestamp := now, agent := none, metadata := none }

/-- The assistant message `handleSend` appends on success. -/
def assistantMsgOf (replyText : String) (now : Nat) : ChatMsg :=
  { id := toString (now + 1), content := replyText, role := .assistant
    timestamp := now, agent := some "financial_assistant", metadata := none }

/-- part_002 `handleSend`, success path over the v2 API: bail out on a
blank input, otherwise append the trimmed user message and the
assistant reply, adopt the session id returned by the backend, and
persist the updated list (the source computes `updatedMessages`
explicitly so the save sees both new messages). -/
def handleSendSuccess (userId : String) (st : ChatState)
    (inputText replyText respSessionId : String) (now : Nat) : ChatState :=
  if jsTrim inputText = "" then st
  else
    let updatedMessages := st.messages ++ [userMsgOf inputText now, assistantMsgOf replyText now]
    let st1 := { st with messages := updatedMessages, sessionId := some respSessionId }
    saveChatHistoryDirectly userId st1 respSessionId updatedMessages now

/-- part_002 `handleSend`, error classification: 503 and 429 get their
dedicated texts, anything else the generic apology. -/
def errorContentFor (status : Option Nat) : String :=
  if status = some 503 then
    "The AI service is currently unavailable. Please try again in a moment."
  else if status = some 429 then
    "Too many requests. Please wait a moment before trying again."
  else
    "I'm sorry, I encountered an error while processing your request. Please try again."

/-- The assistant message the catch block appends, tagged with the
synthetic `error` agent so the UI can style it distinctly. -/
def errorMsgOf (status : Option Nat) (now : Nat) : ChatMsg :=
  { id := toString (now + 1), content := errorContentFor status, role := .assistant
    timestamp := now, agent := some "error", metadata := none }

/-- part_002 `handleSend`, failure path: the user message was already
appended before the request; the catch appends the classified error
message and nothing is persisted.  The catch always yields a state, so
the rejection is handled. -/
def handleSendFailure (st : ChatState) (inputText : String) (status : Option Nat)
    (now : Nat) : ChatState :=
  if jsTrim inputText = "" then st
  else
    { st with messages := st.messages ++ [userMsgOf inputText now, errorMsgOf status now] }

/-- Backend API version selector of both chat interface variants. -/
inductive ApiVersion where
  | v1 | v2 | demo
deriving DecidableEq, Repr

/-- src/client ChatInterface.tsx `handleSend`, error classification of
that variant: version-aware messages for 503 (v2 only) and 401
(non-demo only), else a generic connection message. -/
def clientErrorContentFor (v : ApiVersion) (status : Option Nat) : String :=
  if v = .v2 ∧ status = some 503 then
    "The advanced financial advisor (v2) is currently unavailable. Please try switching to v1 or demo mode."
  else if v ≠ .demo ∧ status = some 401 then
    "Authentication required. Please try using demo mode for now."
  else
    "I apologize, but I'm having trouble connecting to the AI service. Please try again in a moment."

/-- A session of successful exchanges against a backend that keeps
returning the same session id: fold of `handleSendSuccess`. -/
def runChat (userId sid : String) : ChatState → List (String × String) → ChatState
  | st, [] => st
  | st, (u, r) :: rest => runChat userId sid (handleSendSuccess userId st u r sid 0) rest

/-- The role sequence contributed by `n` exchanges. -/
def rolePattern : Nat → List Role
  | 0 => []
  | n + 1 => rolePattern n ++ [.user, .assistant]

/-! ## Session-id lifecycle (part_002 and ChatInterface.tsx effects) -/

abbrev LocalStorage := String → Option String

def removeItem (ls : LocalStorage) (k : String) : LocalStorage :=
  fun x => if x = k then none else ls x

def setItem (ls : LocalStorage) (k v : String) : LocalStorage :=
  fun x => if x = k then some v else ls x

def sessionKey : String := "coagentics_session_id"

/-- The slice of browser state the session-id effects touch. -/
structure SessionView where
  storage : LocalStorage
  sessionId : Option String

/-- part_002 mount effect: `localStorage.removeItem` and
`setSessionId(null)` — a fresh session on every page load. -/
def mountEffectFresh (s : SessionView) : SessionView :=
  { storage := removeItem s.storage sessionKey, sessionId := none }

/-- src/client ChatInterface.tsx mount effect: read the saved session
id and adopt it when truthy and none is set yet. -/
def mountEffectRestore (s : SessionView) : SessionView :=
  match s.storage sessionKey with
  | some saved => if saved ≠ "" ∧ s.sessionId = none then { s with sessionId := some saved } else s
  | none => s

/-- The shared `[sessionId]` effect: persist a truthy session id to
local storage. -/
def persistSessionIdEffect (s : SessionView) : SessionView :=
  match s.sessionId with
  | some sid => if sid ≠ "" then { s with storage := setItem s.storage sessionKey sid } else s
  | none => s

/-! ## Legacy API response interceptor (src/unnamed/part_006 / api.ts) -/

/-- The browser state the legacy interceptor touches, plus the log of
`window.location.href` assignments it performs. -/
structure LegacyApiState where
  storage : LocalStorage
  navigations : List String

/-- The legacy axios response error interceptor: on a 401 remove the
stored `auth_token` and navigate to `/auth`; every error is re-raised
(`Promise.reject`), reported by the returned flag. -/
def legacyResponseErrorInterceptor (status : Option Nat) (st : LegacyApiState) :
    LegacyApiState × Bool :=
  if status = some 401 then
    ({ storage := removeItem st.storage "auth_token"
       navigations := st.navigations ++ ["/auth"] }, true)
  else (st, true)

/-! ## Auth context profile check (firestore.ts `needsOnboarding`,
src/unnamed/part_005 `checkUserProfile`) -/

/-- The stored profile as the completeness check sees it. -/
structure StoredProfile where
  profileCompleted : Bool
deriving DecidableEq, Repr

/-- firestore.ts `FirestoreService.needsOnboarding`: a throwing lookup
is caught and reported as `true`; otherwise a missing record or
`profileCompleted = false` needs onboarding. -/
def needsOnboarding : Except Unit (Option StoredProfile) → Bool
  | .error _ => true
  | .ok none => true
  | .ok (some p) => !p.profileCompleted

/-- The auth-context state the profile check sets. -/
structure AuthContextState where
  userProfile : Option StoredProfile
  needsOnboarding : Bool
deriving DecidableEq, Repr

/-- part_005 `checkUserProfile` for a signed-in user: it performs two
store reads (`getUserProfile`, then `needsOnboarding`).  A throw from
the first is caught and sets the flag `true` with no profile; otherwise
the flag is whatever `needsOnboarding` computed from the second. -/
def checkUserProfile (profileLookup onboardingLookup : Except Unit (Option StoredProfile)) :
    AuthContextState :=
  match profileLookup with
  | .error _ => { userProfile := none, needsOnboarding := true }
  | .ok p => { userProfile := p, needsOnboarding := needsOnboarding onboardingLookup }

/-! ## Voice recording hook (useVoiceRecording.ts)

The hook's refs and callbacks become explicit state: `stoppedTracks`
logs every `track.stop()` call, `errorLog` the `onError` invocations,
and `completedBlobs` the `onRecordingComplete` invocations. -/

/-- A MediaRecorder as the hook observes it: which handlers are
attached and whether `stop()` was called. -/
structure MediaRecorderState where
  ondataavailableSet : Bool
  onstopSet : Bool
  stopped : Bool
deriving DecidableEq, Repr

structure VoiceState where
  isRecording : Bool
  isProcessing : Bool
  recordingDuration : Nat
  hasPermission : Option Bool
  recorder : Option MediaRecorderState
  audioChunks : List Nat
  stream : Option (List Nat)
  timerActive : Bool
  stoppedTracks : List Nat
  errorLog : List String
  completedBlobs : List (List Nat)

/-- The browser environment: whether the microphone is allowed, and
the track ids a successful `getUserMedia` yields. -/
structure MicEnv where
  allowed : Bool
  tracks : List Nat

/-- `navigator.mediaDevices.getUserMedia({audio: …})`: a stream on
grant, a rejection on denial. -/
def getUserMedia (env : MicEnv) : Option (List Nat) :=
  if env.allowed then some env.tracks else none

def permissionDeniedMsg : String :=
  "Microphone permission denied. Please allow microphone access to use voice recording."

def permissionRequiredMsg : String :=
  "Microphone permission required. Please enable microphone access."

def failedStartMsg : String :=
  "Failed to start recording. Please check your microphone."

/-- useVoiceRecording `requestPermission`: probe `getUserMedia`; on
success record the grant and stop the probe stream's tracks
immediately; on rejection record the denial and invoke `onError` with
the permission-denied message. -/
def requestPermission (env : MicEnv) (st : VoiceState) : VoiceState × Bool :=
  match getUserMedia env with
  | some tracks =>
      ({ st with hasPermission := some true
                 stoppedTracks := st.stoppedTracks ++ tracks }, true)
  | none =>
      ({ st with hasPermission := some false
                 errorLog := st.errorLog ++ [permissionDeniedMsg] }, false)

/-- The body of `startRecording` after the permission gate: acquire the
stream, reset the chunk buffer, attach both handlers, start recording
and the 1-second duration timer; a `getUserMedia` rejection lands in
the catch with the generic start failure. -/
def beginCapture (env : MicEnv) (st : VoiceState) : VoiceState :=
  match getUserMedia env with
  | none => { st with errorLog := st.errorLog ++ [failedStartMsg] }
  | some tracks =>
      { st with stream := some tracks
                audioChunks := []
                recorder := some { ondataavailableSet := true, onstopSet := true, stopped := false }
                isRecording := true
                timerActive := true }

/-- useVoiceRecording `startRecording`: with unknown permission first
run `requestPermission` and bail out when not granted; with a recorded
denial invoke `onError` and bail out; otherwise capture. -/
def startRecording (env : MicEnv) (st : VoiceState) : VoiceState :=
  match st.hasPermission with
  | none =>
      let probe := requestPermission env st
      if probe.2 then beginCapture env probe.1 else probe.1
  | some false => { st with errorLog := st.errorLog ++ [permissionRequiredMsg] }
  | some true => beginCapture env st

/-- useVoiceRecording `stopRecording`: stop the recorder with its
handlers still attached, clear the timer, stop and drop the stream. -/
def stopRecording (st : VoiceState) : VoiceState :=
  if st.recorder.isSome && st.isRecording then
    { st with recorder := st.recorder.map fun r => { r with stopped := true }
              isRecording := false
              recordingDuration := 0
              timerActive := false
              stoppedTracks := st.stoppedTracks ++ st.stream.getD []
              stream := none }
  else st

/-- The browser delivering the MediaRecorder `stop` event: the `onstop`
handler (when still attached) finalizes the buffered chunks into a blob
and invokes `onRecordingComplete`. -/
def fireStopEvent (st : VoiceState) : VoiceState :=
  match st.recorder with
  | some r =>
      if r.stopped ∧ r.onstopSet then
        { st with completedBlobs := st.completedBlobs ++ [st.audioChunks]
                  isProcessing := false }
      else st
  | none => st

/-- useVoiceRecording `cancelRecording`: detach both handlers before
stopping (so `onstop` never runs), reset the flags and duration,
discard the buffered chunks, clear the timer, stop and drop the
stream. -/
def cancelRecording (st : VoiceState) : VoiceState :=
  if st.recorder.isSome && st.isRecording then
    { st with recorder := st.recorder.map fun r =>
                { r with ondataavailableSet := false, onstopSet := false, stopped := true }
              isRecording := false
              recordingDuration := 0
              isProcessing := false
              audioChunks := []
              timerActive := false
              stoppedTracks := st.stoppedTracks ++ st.stream.getD []
              stream := none }
  else st

/-! ## Concrete states used by witnesses and counterexamples -/

/-- A self-employed form with a leftover non-empty industry type:
every step validates, yet "industry present iff salaried" fails. -/
def fdCex : FormData :=
  { name := "Arun", age := 30, gender := .male, maritalStatus := .single
    employmentStatus := .selfEmployed, industryType := "Technology"
    monthlyIncome := 1000
    dependents := { wife := false, parents := false, kids := false }
    kidsCount := 0, location := { state := "Goa", city := "Panaji" }
    insurance := { life := false, health := false }
    insuranceCoverage := { healthClaimLimit := 0, lifeClaimLimit := 0 } }

/-- An unemployed form with zero income: the income requirement does
not apply, so every step validates. -/
def fdUnemployed : FormData :=
  { name := "Ravi", age := 40, gender := .male, maritalStatus := .single
    employmentStatus := .unemployed, industryType := ""
    monthlyIncome := 0
    dependents := { wife := false, parents := false, kids := false }
    kidsCount := 0, location := { state := "Kerala", city := "Kochi" }
    insurance := { life := false, health := false }
    insuranceCoverage := { healthClaimLimit := 0, lifeClaimLimit := 0 } }

/-- Health insurance selected with claim limit 0. -/
def fdHealthZero : FormData :=
  { fdUnemployed with insurance := { life := false, health := true } }

/-- A fully filled salaried form with kids. -/
def fdSalaried : FormData :=
  { name := "Maya", age := 28, gender := .female, maritalStatus := .married
    employmentStatus := .salaried, industryType := "Technology"
    monthlyIncome := 50000
    dependents := { wife := false, parents := true, kids := true }
    kidsCount := 2, location := { state := "Karnataka", city := "Bengaluru" }
    insurance := { life := true, health := true }
    insuranceCoverage := { healthClaimLimit := 500000, lifeClaimLimit := 1000000 } }

/-- The hook's state before any interaction. -/
def idleVoiceState : VoiceState :=
  { isRecording := false, isProcessing := false, recordingDuration := 0
    hasPermission := none, recorder := none, audioChunks := []
    stream := none, timerActive := false, stoppedTracks := []
    errorLog := [], completedBlobs := [] }

/-- A state in the middle of a recording: permission granted, recorder
live with both handlers attached, two tracks acquired, one chunk
buffered. -/
def recordingVoiceState : VoiceState :=
  { isRecording := true, isProcessing := false, recordingDuration := 2
    hasPermission := some true
    recorder := some { ondataavailableSet := true, onstopSet := true, stopped := false }
    audioChunks := [7], stream := some [1, 2], timerActive := true
    stoppedTracks := [], errorLog := [], completedBlobs := [] }

/-- An existing chat-history document. -/
def oldChatRecord : ChatRecord :=
  { user_id := "u1", session_id := "s1", chat_data := [greetingMessage]
    title := "first question", createdAt := some 5, updatedAt := 6 }

/-- The save-state invariant carried through a chat session with a
fixed backend session id: message count, role alternation, and (once
an exchange happened) the persisted list mirroring the in-memory
list. -/
def ChatInv (sid : String) (st : ChatState) (k : Nat) : Prop :=
  st.messages.length = 1 + 2 * k ∧
  st.messages.map ChatMsg.role = Role.assistant :: rolePattern k ∧
  (k = 0 → st.currentHistorySession = none) ∧
  (k ≠ 0 → st.currentHistorySession = some sid ∧
    (st.store sid).map ChatRecord.chat_data = some (st.messages.map toStoredMessage))

/-! ## Helper lemmas for the chat-history invariant -/

theorem chatInv_init (sid : String) (store : ChatStore) :
    ChatInv sid (initialChatState store) 0 :=
  ⟨rfl, rfl, fun _ => rfl, fun h => absurd rfl h⟩

theorem saveDirectly_store_chat_data (userId sid : String) (st : ChatState)
    (msgs : List ChatMsg) (now : Nat) (hlen : 1 < msgs.length)
    (h : st.currentHistorySession = some sid → (st.store sid).isSome) :
    ((saveChatHistoryDirectly userId st sid msgs now).store sid).map ChatRecord.chat_data
      = some (msgs.map toStoredMessage) ∧
    (saveChatHistoryDirectly userId st sid msgs now).currentHistorySession = some sid ∧
    (saveChatHistoryDirectly userId st sid msgs now).messages = st.messages := by
  unfold saveChatHistoryDirectly
  rw [if_neg (by omega)]
  by_cases hc : st.currentHistorySession = some sid
  · obtain ⟨old, hold⟩ := Option.isSome_iff_exists.mp (h hc)
    simp [hc, updateChatHistory, hold, setDoc]
  · simp [hc, saveChatHistory, setDoc]

theorem chatInv_step (userId sid u r : String) (now : Nat) (st : ChatState) (k : Nat)
    (hu : jsTrim u ≠ "") (h : ChatInv sid st k) :
    ChatInv sid (handleSendSuccess userId st u r sid now) (k + 1) := by
  obtain ⟨hlen, hroles, h0, hk⟩ := h
  simp only [handleSendSuccess, if_neg hu]
  have hs := saveDirectly_store_chat_data userId sid
    ({ st with messages := st.messages ++ [userMsgOf u now, assistantMsgOf r now],
               sessionId := some sid })
    (st.messages ++ [userMsgOf u now, assistantMsgOf r now]) now
    (by simp [hlen])
    (by
      intro hc
      simp only at hc
      rcases Nat.eq_zero_or_pos k with hk0 | hkpos
      · rw [h0 hk0] at hc; exact absurd hc (by simp)
      · obtain ⟨rec, hrec, _⟩ := Option.map_eq_some'.mp (hk (by omega)).2
        simp only
        rw [hrec]; rfl)
  refine ⟨?_, ?_, ?_, ?_⟩
  · rw [hs.2.2]; simp only [List.length_append, hlen]; simp; omega
  · rw [hs.2.2]
    simp only [List.map_append, hroles, rolePattern]
    rfl
  · omega
  · intro _
    refine ⟨hs.2.1, ?_⟩
    rw [hs.1, hs.2.2]

theorem chatInv_run (userId sid : String) (exchanges : List (String × String))
    (hne : ∀ e ∈ exchanges, jsTrim e.1 ≠ "") (st : ChatState) (k : Nat)
    (h : ChatInv sid st k) :
    ChatInv sid (runChat userId sid st exchanges) (k + exchanges.length) := by
  induction exchanges generalizing st k with
  | nil => simpa using h
  | cons e rest ih =>
      obtain ⟨u, r⟩ := e
      have hstep := chatInv_step userId sid u r 0 st k (hne (u, r) (by simp)) h
      have := ih (fun e he => hne e (by simp [he])) _ _ hstep
      simpa [runChat, Nat.add_comm, Nat.add_assoc, Nat.add_left_comm] using this

theorem resave_chat_data (userId sid : String) (st : ChatState) (k : Nat) (now : Nat)
    (h : ChatInv sid st k) (hk : k ≠ 0) :
    ((saveChatHistoryDirectly userId st sid st.messages now).store sid).map ChatRecord.chat_data
      = some (st.messages.map toStoredMessage) := by
  obtain ⟨hlen, _, _, hcur⟩ := h
  refine (saveDirectly_store_chat_data userId sid st st.messages now (by omega) ?_).1
  intro _
  obtain ⟨rec, hrec, _⟩ := Option.map_eq_some'.mp (hcur hk).2
  rw [hrec]; rfl

/-! ## The claims -/

/-- C1: every onboarding submission persists a record with
`profileCompleted = true` that contains an `industryType` field only if
employment status is salaried and a `kidsCount` field only if the kids
dependency flag is true, and the document written to the store holds no
undefined-valued fields. -/
theorem submittedProfile_optional_field_invariant (uid email : String) (fd : FormData)
    (now : Nat) :
    ("industryType" ∈ (submittedProfileDoc uid email fd now).map Prod.fst →
      fd.employmentStatus = .salaried) ∧
    ("kidsCount" ∈ (submittedProfileDoc uid email fd now).map Prod.fst →
      fd.dependents.kids = true) ∧
    ((submittedProfileDoc uid email fd now).all fun kv => kv.2.isSome) = true ∧
    ("profileCompleted", some (.boolean true)) ∈ submittedProfileDoc uid email fd now := by
  unfold submittedProfileDoc createUserProfileDoc removeUndefinedValues
    submittedProfileFields baseProfileFields
  split <;> split <;> simp_all

theorem submittedProfile_optional_field_invariant_witness :
    fdSalaried.employmentStatus = EmploymentStatus.salaried ∧
    fdSalaried.dependents.kids = true :=
  ⟨(submittedProfile_optional_field_invariant "u1" "maya@example.com" fdSalaried 7).1
      (by decide),
   (submittedProfile_optional_field_invariant "u1" "maya@example.com" fdSalaried 7).2.1
      (by decide)⟩

/-- C2 counterexample: a self-employed form keeping a non-empty
industry type passes every validation step, yet the claim's
"industry type is present iff employment status is salaried"
biconditional is false there, so validation success is not equivalent
to the claimed characterization. -/
theorem validateStep_iff_characterization_cex :
    allStepsValid fdCex = true ∧ claimedValidationSpec fdCex = false := by
  decide

/-- C2 (amended): per-step validation succeeds exactly when name is
non-empty, age is in [18,100], industry type is present IF employment
status is salaried, monthly income is positive unless unemployed,
kids-count is at least 1 IF the kids flag is set, state and city are
present, and each claim limit is positive IF its insurance flag is set
(the converses are not checked); selecting health insurance with claim
limit 0 yields the field-specific health error. -/
theorem validateStep_characterization (fd : FormData) :
    (allStepsValid fd = true ↔
      (jsTrim fd.name ≠ "" ∧ 18 ≤ fd.age ∧ fd.age ≤ 100 ∧
       (fd.employmentStatus = .salaried → fd.industryType ≠ "") ∧
       (fd.employmentStatus ≠ .unemployed → 0 < fd.monthlyIncome) ∧
       (fd.dependents.kids = true → 1 ≤ fd.kidsCount) ∧
       fd.location.state ≠ "" ∧ jsTrim fd.location.city ≠ "" ∧
       (fd.insurance.health = true → 0 < fd.insuranceCoverage.healthClaimLimit) ∧
       (fd.insurance.life = true → 0 < fd.insuranceCoverage.lifeClaimLimit))) ∧
    (fd.insurance.health = true → fd.insuranceCoverage.healthClaimLimit ≤ 0 →
      ("healthClaimLimit",
        "Health insurance claim limit is required when health insurance is selected")
        ∈ validateStep 4 fd) := by
  constructor
  · simp only [allStepsValid, validateStep, Bool.and_eq_true, List.isEmpty_iff,
      List.append_eq_nil, ite_eq_right_iff, List.cons_ne_nil, imp_false,
      not_and, not_or, not_lt, not_le, ne_eq]
    constructor
    · rintro ⟨⟨⟨⟨h0, h1⟩, h2⟩, h3⟩, h4⟩
      refine ⟨h0.1, ?_, ?_, h1.1, fun h => h1.2 h, h2, h3.1, h3.2, h4.1, h4.2⟩ <;> omega
    · rintro ⟨h0, ha, hb, h1, h1b, h2, h3a, h3b, h4a, h4b⟩
      exact ⟨⟨⟨⟨⟨h0, by omega⟩, ⟨h1, h1b⟩⟩, h2⟩, ⟨h3a, h3b⟩⟩, ⟨h4a, h4b⟩⟩
  · intro h1 h2
    simp [validateStep, h1, h2]

theorem validateStep_characterization_witness :
    allStepsValid fdUnemployed = true ∧
    ("healthClaimLimit",
      "Health insurance claim limit is required when health insurance is selected")
      ∈ validateStep 4 fdHealthZero :=
  ⟨(validateStep_characterization fdUnemployed).1.mpr (by decide),
   (validateStep_characterization fdHealthZero).2 rfl (by decide)⟩

/-- C3: after N successful exchanges in a session the in-memory list
holds 1 + 2N messages (the seed greeting followed by alternating
user/assistant roles); once at least one exchange happened the
persisted `chat_data` equals that list wholesale, and re-saving the
same session with the same content overwrites it wholesale, producing
no duplicate entries. -/
theorem chat_history_shape (userId sid : String) (store : ChatStore)
    (exchanges : List (String × String)) (hne : ∀ e ∈ exchanges, jsTrim e.1 ≠ "") :
    (runChat userId sid (initialChatState store) exchanges).messages.length
        = 1 + 2 * exchanges.length ∧
    (runChat userId sid (initialChatState store) exchanges).messages.map ChatMsg.role
        = Role.assistant :: rolePattern exchanges.length ∧
    (exchanges ≠ [] →
      ((runChat userId sid (initialChatState store) exchanges).store sid).map ChatRecord.chat_data
        = some ((runChat userId sid (initialChatState store) exchanges).messages.map
            toStoredMessage) ∧
      (∀ now, ((saveChatHistoryDirectly userId (runChat userId sid (initialChatState store)
            exchanges) sid (runChat userId sid (initialChatState store) exchanges).messages
            now).store sid).map ChatRecord.chat_data
        = some ((runChat userId sid (initialChatState store) exchanges).messages.map
            toStoredMessage))) := by
  have h := chatInv_run userId sid exchanges hne (initialChatState store) 0
    (chatInv_init sid store)
  simp only [Nat.zero_add] at h
  refine ⟨h.1, h.2.1, fun hne0 => ?_⟩
  have hk : exchanges.length ≠ 0 := by simpa using hne0
  exact ⟨(h.2.2.2 hk).2, fun now => resave_chat_data userId sid _ _ now h hk⟩

theorem chat_history_shape_witness :
    (runChat "u1" "s1" (initialChatState fun _ => none) [("hi", "hello")]).messages.length = 3 ∧
    ((runChat "u1" "s1" (initialChatState fun _ => none) [("hi", "hello")]).store "s1").map
        ChatRecord.chat_data
      = some ((runChat "u1" "s1" (initialChatState fun _ => none)
          [("hi", "hello")]).messages.map toStoredMessage) := by
  have h := chat_history_shape "u1" "s1" (fun _ => none) [("hi", "hello")] (by decide)
  exact ⟨h.1, (h.2.2 (by decide)).1⟩

/-- C4: a 401 response through the legacy interceptor removes the
stored auth token and performs exactly one navigation to the login
route; every other status leaves the state untouched, and the error is
always re-raised. -/
theorem legacy_401_clears_token_and_redirects (st : LegacyApiState) (status : Option Nat)
    (h : status = some 401) :
    (legacyResponseErrorInterceptor status st).1.storage "auth_token" = none ∧
    (legacyResponseErrorInterceptor status st).1.navigations = st.navigations ++ ["/auth"] ∧
    (legacyResponseErrorInterceptor status st).2 = true ∧
    (∀ s, s ≠ some 401 → legacyResponseErrorInterceptor s st = (st, true)) := by
  subst h
  refine ⟨?_, ?_, ?_, ?_⟩
  · simp [legacyResponseErrorInterceptor, removeItem]
  · simp [legacyResponseErrorInterceptor]
  · simp [legacyResponseErrorInterceptor]
  · intro s hs
    simp [legacyResponseErrorInterceptor, hs]

theorem legacy_401_clears_token_and_redirects_witness :
    (legacyResponseErrorInterceptor (some 401)
        { storage := setItem (fun _ => none) "auth_token" "tok", navigations := [] }).1.storage
        "auth_token" = none ∧
    (legacyResponseErrorInterceptor (some 401)
        { storage := setItem (fun _ => none) "auth_token" "tok", navigations := [] }).1.navigations
      = [] ++ ["/auth"] :=
  ⟨(legacy_401_clears_token_and_redirects
      { storage := setItem (fun _ => none) "auth_token" "tok", navigations := [] }
      (some 401) rfl).1,
   (legacy_401_clears_token_and_redirects
      { storage := setItem (fun _ => none) "auth_token" "tok", navigations := [] }
      (some 401) rfl).2.1⟩

/-- C5 counterexample: with a session id saved in local storage, the
src/client ChatInterface mount effect restores it instead of clearing
it — the session id after the page load is "abc12345", not none, so the
session identifier is not cleared on every page load. -/
theorem client_mount_restores_session_cex :
    (mountEffectRestore
        { storage := setItem (fun _ => none) sessionKey "abc12345", sessionId := none }).sessionId
      = some "abc12345" ∧
    (mountEffectRestore
        { storage := setItem (fun _ => none) sessionKey "abc12345", sessionId := none }).sessionId
      ≠ none := by
  constructor
  · rfl
  · decide

/-- C5 (amended): the part_002 variant clears both the stored and the
in-memory session id on every page load, while the src/client
ChatInterface variant restores a saved session id from local storage on
mount (cross-reload continuity); in both variants a session id issued
by the backend is persisted to local storage by the `[sessionId]`
effect. -/
theorem session_id_lifecycle :
    (∀ s : SessionView, (mountEffectFresh s).sessionId = none ∧
      (mountEffectFresh s).storage sessionKey = none) ∧
    (∀ (s : SessionView) (saved : String), s.storage sessionKey = some saved → saved ≠ "" →
      s.sessionId = none → (mountEffectRestore s).sessionId = some saved) ∧
    (∀ (s : SessionView) (sid : String), s.sessionId = some sid → sid ≠ "" →
      (persistSessionIdEffect s).storage sessionKey = some sid) := by
  refine ⟨fun s => ⟨rfl, ?_⟩, fun s saved hsaved hne hnone => ?_, fun s sid hsid hne => ?_⟩
  · simp [mountEffectFresh, removeItem]
  · simp [mountEffectRestore, hsaved, hne, hnone]
  · simp [persistSessionIdEffect, hsid, hne, setItem]

theorem session_id_lifecycle_witness :
    (mountEffectRestore
        { storage := setItem (fun _ => none) sessionKey "abc12345", sessionId := none }).sessionId
      = some "abc12345" ∧
    (persistSessionIdEffect
        { storage := fun _ => none, sessionId := some "xyz" }).storage sessionKey = some "xyz" :=
  ⟨session_id_lifecycle.2.1
      { storage := setItem (fun _ => none) sessionKey "abc12345", sessionId := none }
      "abc12345" rfl (by decide) rfl,
   session_id_lifecycle.2.2
      { storage := fun _ => none, sessionId := some "xyz" } "xyz" rfl (by decide)⟩

/-- C6: a send failing with HTTP 503 appends the assistant-roled
message with the literal service-unavailable fallback text (tagged with
the synthetic error agent) after the already-appended user message, and
the handled catch yields a state, so no rejection escapes; the
src/client variant renders its own v2 equivalent for 503. -/
theorem error_503_fallback (st : ChatState) (inputText : String) (now : Nat)
    (hin : jsTrim inputText ≠ "") :
    (handleSendFailure st inputText (some 503) now).messages
      = st.messages ++
        [userMsgOf inputText now,
         { id := toString (now + 1)
           content := "The AI service is currently unavailable. Please try again in a moment."
           role := .assistant, timestamp := now, agent := some "error", metadata := none }] ∧
    (handleSendFailure st inputText (some 503) now).store = st.store ∧
    clientErrorContentFor .v2 (some 503)
      = "The advanced financial advisor (v2) is currently unavailable. Please try switching to v1 or demo mode." := by
  refine ⟨?_, ?_, rfl⟩
  · simp [handleSendFailure, hin, errorMsgOf, errorContentFor]
  · simp [handleSendFailure, hin]

theorem error_503_fallback_witness :
    (handleSendFailure (initialChatState fun _ => none) "help" (some 503) 1).messages
      = [greetingMessage] ++
        [userMsgOf "help" 1,
         { id := toString 2
           content := "The AI service is currently unavailable. Please try again in a moment."
           role := .assistant, timestamp := 1, agent := some "error", metadata := none }] :=
  (error_503_fallback (initialChatState fun _ => none) "help" 1 (by decide)).1


/-- C7: calling startRecording with a recorded permission denial, or
with unknown permission resolving to denied, creates and retains no
media stream, leaves the recorder untouched, and invokes the error
callback with a permission-denied message. -/
theorem startRecording_denied (env : MicEnv) (st : VoiceState)
    (hstream : st.stream = none)
    (h : st.hasPermission = some false ∨ (st.hasPermission = none ∧ env.allowed = false)) :
    (startRecording env st).stream = none ∧
    (startRecording env st).recorder = st.recorder ∧
    (startRecording env st).isRecording = st.isRecording ∧
    ((startRecording env st).errorLog = st.errorLog ++ [permissionDeniedMsg] ∨
     (startRecording env st).errorLog = st.errorLog ++ [permissionRequiredMsg]) := by
  rcases h with h | ⟨h1, h2⟩
  · refine ⟨?_, ?_, ?_, Or.inr ?_⟩ <;> simp [startRecording, h, hstream]
  · refine ⟨?_, ?_, ?_, Or.inl ?_⟩ <;>
      simp [startRecording, requestPermission, getUserMedia, h1, h2, hstream]

theorem startRecording_denied_witness :
    (startRecording { allowed := false, tracks := [1, 2] } idleVoiceState).stream = none ∧
    ((startRecording { allowed := false, tracks := [1, 2] } idleVoiceState).errorLog
        = idleVoiceState.errorLog ++ [permissionDeniedMsg] ∨
     (startRecording { allowed := false, tracks := [1, 2] } idleVoiceState).errorLog
        = idleVoiceState.errorLog ++ [permissionRequiredMsg]) :=
  ⟨(startRecording_denied { allowed := false, tracks := [1, 2] } idleVoiceState rfl
      (Or.inr ⟨rfl, rfl⟩)).1,
   (startRecording_denied { allowed := false, tracks := [1, 2] } idleVoiceState rfl
      (Or.inr ⟨rfl, rfl⟩)).2.2.2⟩

/-- C8: cancelling an active recording never fires the completion
callback — neither at cancel time nor when the recorder's stop event is
later delivered, since both handlers are detached before stopping —
stops every acquired media track, clears the duration timer, and
discards the buffered audio. -/
theorem cancelRecording_releases_resources (st : VoiceState) (r : MediaRecorderState)
    (tracks : List Nat) (hrec : st.recorder = some r) (hon : st.isRecording = true)
    (hstream : st.stream = some tracks) :
    (cancelRecording st).completedBlobs = st.completedBlobs ∧
    (fireStopEvent (cancelRecording st)).completedBlobs = st.completedBlobs ∧
    (∀ t ∈ tracks, t ∈ (cancelRecording st).stoppedTracks) ∧
    (cancelRecording st).timerActive = false ∧
    (cancelRecording st).audioChunks = [] ∧
    (cancelRecording st).stream = none := by
  have hguard : (st.recorder.isSome && st.isRecording) = true := by simp [hrec, hon]
  refine ⟨?_, ?_, fun t ht => ?_, ?_, ?_, ?_⟩
  · simp [cancelRecording, hguard]
  · simp [cancelRecording, fireStopEvent, hguard, hrec, hon]
  · simp [cancelRecording, hguard, hstream, ht]
  · simp [cancelRecording, hguard]
  · simp [cancelRecording, hguard]
  · simp [cancelRecording, hguard]

theorem cancelRecording_releases_resources_witness :
    (fireStopEvent (cancelRecording recordingVoiceState)).completedBlobs
      = recordingVoiceState.completedBlobs ∧
    (∀ t ∈ [1, 2], t ∈ (cancelRecording recordingVoiceState).stoppedTracks) ∧
    (cancelRecording recordingVoiceState).stream = none :=
  ⟨(cancelRecording_releases_resources recordingVoiceState _ [1, 2] rfl rfl rfl).2.1,
   (cancelRecording_releases_resources recordingVoiceState _ [1, 2] rfl rfl rfl).2.2.1,
   (cancelRecording_releases_resources recordingVoiceState _ [1, 2] rfl rfl rfl).2.2.2.2.2⟩

/-- C9: a failing profile lookup is conservatively treated as needing
onboarding: `needsOnboarding` returns true when the store read throws,
and `checkUserProfile` sets the context flag to true when either of its
two reads throws. -/
theorem failed_profile_lookup_needs_onboarding :
    (∀ e : Unit, needsOnboarding (.error e) = true) ∧
    (∀ r : Except Unit (Option StoredProfile),
      (checkUserProfile (.error ()) r).needsOnboarding = true ∧
      (checkUserProfile (.error ()) r).userProfile = none) ∧
    (∀ p : Option StoredProfile,
      (checkUserProfile (.ok p) (.error ())).needsOnboarding = true) :=
  ⟨fun _ => rfl, fun _ => ⟨rfl, rfl⟩, fun _ => rfl⟩

/-- C10: saving chat history for an existing session preserves the
stored createdAt while chat_data, title and updatedAt are replaced by
the new values; only for a new session is createdAt set to the current
time. -/
theorem saveChatHistory_frame (store : ChatStore) (uid sid : String)
    (msgs : List ChatMsg) (t : String) (now : Nat) (ht : t ≠ "") :
    (∀ old c, store sid = some old → old.createdAt = some c →
      (saveChatHistory store uid sid msgs (some t) now) sid
        = some { user_id := uid, session_id := sid, chat_data := msgs, title := t
                 createdAt := some c, updatedAt := now }) ∧
    (store sid = none →
      (saveChatHistory store uid sid msgs (some t) now) sid
        = some { user_id := uid, session_id := sid, chat_data := msgs, title := t
                 createdAt := some now, updatedAt := now }) := by
  constructor
  · intro old c hold hc
    simp [saveChatHistory, setDoc, hold, hc, ht]
  · intro hnone
    simp [saveChatHistory, setDoc, hnone, ht]

theorem saveChatHistory_frame_witness :
    (saveChatHistory (fun k => if k = "s1" then some oldChatRecord else none)
        "u1" "s1" [] (some "hello") 9) "s1"
      = some { user_id := "u1", session_id := "s1", chat_data := [], title := "hello"
               createdAt := some 5, updatedAt := 9 } :=
  (saveChatHistory_frame (fun k => if k = "s1" then some oldChatRecord else none)
      "u1" "s1" [] "hello" 9 (by decide)).1 oldChatRecord 5 rfl rfl

end CoAgentics

